import Mathlib

/-!
Shallow embedding of the cbang concurrent event-driven HTTP server core and
of the option subsystem's atomic update, covering
`src/cbang/event/HTTP.cpp`, `src/cbang/event/ConcurrentPool.cpp` and
`src/cbang/config/Option.cpp`.

C++ exceptions are modelled with `Except`, mutable object state with explicit
record passing, and externally supplied behaviour (the application handler,
the `Request` reply methods, option validators) with parameters.  Log calls
and callback invocations are recorded in event traces so that "is invoked
exactly once" style properties can be counted.
-/

namespace Cbang

open scoped List

/-- A thrown C++ value as discriminated by the catch clauses in the sources:
a cbang `Exception` (code plus message text), some other `std::exception`
(identified by its `what()` string), or any other thrown value (`catch (...)`). -/
inductive CppExc where
  | cb (code : Int) (messages : String)
  | std (what : String)
  | other
deriving DecidableEq

/-- The parts of `Event::Request` that `HTTP::dispatch` reads: the
monotonically assigned ID and the client IP (used in the warning log line). -/
structure Request where
  id : Nat
  clientIP : String
deriving DecidableEq

/-- Outcomes of the external calls made by `HTTP::dispatch`
(`HTTP.cpp` lines 133-166).  Each call site is made at most once per
dispatch, so each is parametrised by a single `Except` outcome:
`handleRequest` and `endRequest` are the handler's virtual methods;
`sendError404` is `req.sendError(HTTP_NOT_FOUND)` inside the try block;
`replyRes` is `req.reply((HTTPStatus::enum_t)e.getCode())`;
`sendErrRes` is `req.sendError(e)`; `sendErr500Res` is
`req.sendError(HTTP_INTERNAL_SERVER_ERROR)`.  `debug3` is
`CBANG_LOG_DEBUG_ENABLED(3)`. -/
structure DispatchEnv where
  handleRequest : Except CppExc Bool
  endRequest : Except CppExc Unit
  sendError404 : Except CppExc Unit
  replyRes : Except CppExc Unit
  sendErrRes : Except CppExc Unit
  sendErr500Res : Except CppExc Unit
  debug3 : Bool

/-- Observable actions of `HTTP::dispatch`: handler calls, log lines and
reply calls, in program order. -/
inductive DEv where
  | callHandle
  | callEnd
  | logWarning (msg : String)
  | logDebug
  | logError (msg : String)
  | send404
  | reply (code : Int)
  | sendErrExc
  | sendErr500
deriving DecidableEq

/-- Result of the try block of `HTTP::dispatch`: returned `true`, fell
through after the 404 reply, or an exception escaped the block. -/
inductive TryOut where
  | retTrue
  | fell
  | threw (e : CppExc)
deriving DecidableEq

/-- The try block of `HTTP::dispatch` (`HTTP.cpp` lines 134-140):
call `handler.handleRequest(req)`; on `true` call `handler.endRequest(req)`
and return `true`; on `false` call `req.sendError(HTTP_NOT_FOUND)`. -/
def dispatchTry (env : DispatchEnv) : List DEv × TryOut :=
  match env.handleRequest with
  | Except.error e => ([DEv.callHandle], TryOut.threw e)
  | Except.ok true =>
      match env.endRequest with
      | Except.ok _ => ([DEv.callHandle, DEv.callEnd], TryOut.retTrue)
      | Except.error e => ([DEv.callHandle, DEv.callEnd], TryOut.threw e)
  | Except.ok false =>
      match env.sendError404 with
      | Except.ok _ => ([DEv.callHandle, DEv.send404], TryOut.fell)
      | Except.error e => ([DEv.callHandle, DEv.send404], TryOut.threw e)

/-- The catch clauses of `HTTP::dispatch` (`HTTP.cpp` lines 142-162).
A cbang exception with code in [400, 600) logs a warning containing the
request ID, the client IP and the exception messages, then replies with that
code; any other cbang exception logs and calls `req.sendError(e)`; a foreign
`std::exception` logs its `what()` and calls `req.sendError(e)`; anything
else logs and sends a 500.  The returned `Except` is the outcome of the
executed clause (the reply call may itself throw). -/
def dispatchCatch (env : DispatchEnv) (req : Request) (e : CppExc) :
    List DEv × Except CppExc Unit :=
  match e with
  | CppExc.cb c m =>
      if 400 ≤ c ∧ c < 600 then
        ([DEv.logWarning ("REQ" ++ toString req.id ++ ":" ++ req.clientIP ++ ":" ++ m),
          DEv.reply c], env.replyRes)
      else
        ((if env.debug3 then [DEv.logDebug] else [DEv.logWarning m, DEv.logDebug])
           ++ [DEv.sendErrExc], env.sendErrRes)
  | CppExc.std w => ([DEv.logError w, DEv.sendErrExc], env.sendErrRes)
  | CppExc.other =>
      ([DEv.logError "Internal Server Error", DEv.sendErr500], env.sendErr500Res)

/-- `HTTP::dispatch` (`HTTP.cpp` lines 133-166): run the try block; when it
returns `true` the dispatch is done; otherwise run the catch clause if an
exception escaped, then call `handler.endRequest(req)` and return `false`.
An exception thrown by a catch clause itself (or by the final `endRequest`)
propagates out of `dispatch` as `Except.error`. -/
def dispatch (env : DispatchEnv) (req : Request) : List DEv × Except CppExc Bool :=
  match dispatchTry env with
  | (tr, TryOut.retTrue) => (tr, Except.ok true)
  | (tr, TryOut.fell) =>
      match env.endRequest with
      | Except.ok _ => (tr ++ [DEv.callEnd], Except.ok false)
      | Except.error e2 => (tr ++ [DEv.callEnd], Except.error e2)
  | (tr, TryOut.threw e) =>
      match dispatchCatch env req e with
      | (tc, Except.ok _) =>
          match env.endRequest with
          | Except.ok _ => (tr ++ tc ++ [DEv.callEnd], Except.ok false)
          | Except.error e2 => (tr ++ tc ++ [DEv.callEnd], Except.error e2)
      | (tc, Except.error e2) => (tr ++ tc, Except.error e2)

/-- Recognise an `endRequest` invocation in a dispatch trace. -/
def isEndCall : DEv → Bool
  | DEv.callEnd => true
  | _ => false

/-- Number of `endRequest` invocations recorded in a dispatch trace. -/
def countEnd (tr : List DEv) : Nat := tr.countP isEndCall

/-- An error captured on a `ConcurrentPool::Task`: `setException(e)` with a
cbang `Exception` preserves it, `setException(string)` stores a message
string (`ConcurrentPool.cpp` lines 109-117). -/
inductive Captured where
  | cb (code : Int) (messages : String)
  | msg (s : String)
deriving DecidableEq

/-- A `ConcurrentPool::Task` as the pool sees it.  `prio` is the queue
priority; `exc` is the captured error (the task header is not in `src/`, so
per the spec a task is failed exactly when an error was captured).  The
three `Throws` flags parametrise whether the corresponding user callback
(`error`, `success`, `complete`) throws when invoked. -/
structure PoolTask where
  id : Nat
  prio : Int
  exc : Option Captured
  errorThrows : Bool
  successThrows : Bool
  completeThrows : Bool
deriving DecidableEq

/-- `Task::getFailed`: a task is failed exactly when an error was captured. -/
def getFailed (t : PoolTask) : Bool := t.exc.isSome

/-- The possible outcomes of `task->run()` on a worker thread, as
discriminated by the catch clauses of `ConcurrentPool::run`
(`ConcurrentPool.cpp` lines 106-117). -/
inductive RunOutcome where
  | ok
  | throwCb (code : Int) (messages : String)
  | throwStd (what : String)
  | throwOther
deriving DecidableEq

/-- The error-capture clauses of `ConcurrentPool::run`: a cbang `Exception`
is stored as-is, another `std::exception` as its `what()` string, and any
other thrown value as the literal string `"Unknown exception"`. -/
def runAndCapture (t : PoolTask) (o : RunOutcome) : PoolTask :=
  match o with
  | RunOutcome.ok => t
  | RunOutcome.throwCb c m => { t with exc := some (Captured.cb c m) }
  | RunOutcome.throwStd w => { t with exc := some (Captured.msg w) }
  | RunOutcome.throwOther => { t with exc := some (Captured.msg "Unknown exception") }

/-- The queues and completion event of a `ConcurrentPool`.  `ready` and
`completed` hold tasks in queue pop order (the priority-queue member
declarations are in the header, which is not in `src/`; per the spec both
are max-heaps by priority with FIFO ties).  `activations` counts
`event->activate()` calls. -/
structure PoolState where
  size : Nat
  ready : List PoolTask
  completed : List PoolTask
  activations : Nat
deriving DecidableEq

/-- One iteration of the worker loop body of `ConcurrentPool::run`
(`ConcurrentPool.cpp` lines 96-122) after waking with work available: pop
the top ready task, run it capturing any thrown value into the task, push
the task onto the completed queue and activate the reactor-side event.  The
function is total: no outcome of `run()` propagates, so the worker
continues looping. -/
def workerIteration (s : PoolState) (o : RunOutcome) : PoolState :=
  match s.ready with
  | [] => s
  | t :: rest =>
      { s with ready := rest,
               completed := s.completed ++ [runAndCapture t o],
               activations := s.activations + 1 }

/-- Observable actions of `ConcurrentPool::complete`: callback invocations
on drained tasks, and `CATCH_ERROR` log lines for callbacks that threw. -/
inductive PEv where
  | errorCall (id : Nat) (e : Captured)
  | successCall (id : Nat)
  | completeCall (id : Nat)
  | logCaught
deriving DecidableEq

/-- The per-task body of the drain loop of `ConcurrentPool::complete`
(`ConcurrentPool.cpp` lines 137-142): if the task failed invoke
`error(getException())` else invoke `success()`, catching and logging any
throw; then invoke `complete()`, catching and logging any throw. -/
def drainTask (t : PoolTask) : List PEv :=
  (match t.exc with
   | some e => PEv.errorCall t.id e :: (if t.errorThrows then [PEv.logCaught] else [])
   | none => PEv.successCall t.id :: (if t.successThrows then [PEv.logCaught] else []))
  ++ (PEv.completeCall t.id :: (if t.completeThrows then [PEv.logCaught] else []))

/-- The drain loop of `ConcurrentPool::complete` (`ConcurrentPool.cpp`
lines 131-143) over the completed queue in pop order. -/
def completeDrain : List PoolTask → List PEv
  | [] => []
  | t :: ts => drainTask t ++ completeDrain ts

/-- The first callback `ConcurrentPool::complete` invokes on a task:
`error` with the captured exception when failed, else `success`. -/
def firstCall (t : PoolTask) : PEv :=
  match t.exc with
  | some e => PEv.errorCall t.id e
  | none => PEv.successCall t.id

/-- Recognise an `error` invocation for task `i` in a drain trace. -/
def isErrCallFor (i : Nat) : PEv → Bool
  | PEv.errorCall j _ => j == i
  | _ => false

/-- Recognise a `success` invocation for task `i` in a drain trace. -/
def isSuccCallFor (i : Nat) : PEv → Bool
  | PEv.successCall j => j == i
  | _ => false

/-- Recognise a `complete` invocation for task `i` in a drain trace. -/
def isCompCallFor (i : Nat) : PEv → Bool
  | PEv.completeCall j => j == i
  | _ => false

/-- The `ConcurrentPool` constructor (`ConcurrentPool.cpp` lines 47-53):
construction fails with the quoted message when threads were not enabled on
the event base. -/
def mkConcurrentPool (threadsEnabled : Bool) (size : Nat) : Except String PoolState :=
  if threadsEnabled then
    Except.ok { size := size, ready := [], completed := [], activations := 0 }
  else
    Except.error ("Cannot use Event::ConcurrentPool without threads enabled.  " ++
      "Call Event::Base::enableThreads() before creating Event::Base.")

/-- The slice of a cbang event handle the claims observe: its priority (as
set by `setPriority`; `none` before any call, i.e. the library default), the
`add`/`del` registration state (`added` models `isPending`) and the timer
delay passed to `add`.  Event mask flags are not observed by any claim and
are not represented. -/
structure EventH where
  priority : Option Int
  added : Bool
  delay : Option Nat
deriving DecidableEq

/-- `base.newEvent(...)`: a freshly created, not yet added event. -/
def newEvent : EventH := { priority := none, added := false, delay := none }

/-- The listening socket built by `HTTP::bind` (`HTTP.cpp` lines 100-104). -/
structure SocketH where
  reuseAddr : Bool
  addr : String
  backlog : Nat
deriving DecidableEq

/-- A live `Event::Connection` as the `HTTP` front sees it: its identity
(standing in for the C++ object pointer), start time, and the server-wide
settings applied on accept (`HTTP.cpp` lines 209-215).  Times are modelled
as integers (`Timer::now()` returns a real-valued clock; the scan logic is
representation independent). -/
structure Conn where
  id : Nat
  startTime : Int
  maxHeaderSize : Nat
  maxBodySize : Nat
  priority : Option Int
  readTimeout : Nat
  writeTimeout : Nat
  statsSet : Bool
deriving DecidableEq

/-- The state of an `Event::HTTP` object (fields of `HTTP.h` used by
`HTTP.cpp`): configuration, the ordered live-connection list, the listening
socket and bound address, the accept and expire events, and the stats sink
(`statsSet` models `stats.isSet()`, `statsTimedout` the "timedout"
counter). -/
structure HTTPState where
  maxConnections : Nat
  maxConnectionTTL : Nat
  connectionBacklog : Nat
  maxHeaderSize : Nat
  maxBodySize : Nat
  readTimeout : Nat
  writeTimeout : Nat
  priority : Int
  connections : List Conn
  socket : Option SocketH
  boundAddr : Option String
  acceptEvent : Option EventH
  expireEvent : Option EventH
  statsSet : Bool
  statsTimedout : Nat
deriving DecidableEq

/-- `HTTP::setMaxConnectionTTL` (`HTTP.cpp` lines 65-76): store the TTL;
when nonzero, create the expire event if it does not exist, set its
priority to `priority - 1` when `0 < priority` else `priority`, and
`add(60)`; when zero, evaluate `expireEvent->isPending()` — which
dereferences the smart pointer without an `isSet()` guard, failing when the
expire event was never created — and `del()` the event if pending. -/
def setMaxConnectionTTL (x : Nat) (s0 : HTTPState) : Except String HTTPState :=
  let s := { s0 with maxConnectionTTL := x }
  if x ≠ 0 then
    let ev0 := match s.expireEvent with
               | none => newEvent
               | some e => e
    let p := if 0 < s.priority then s.priority - 1 else s.priority
    let ev1 := { ev0 with priority := some p }
    let ev2 := { ev1 with added := true, delay := some 60 }
    Except.ok { s with expireEvent := some ev2 }
  else
    match s.expireEvent with
    | none => Except.error "NULL SmartPointer dereference"
    | some ev =>
        if ev.added then
          Except.ok { s with expireEvent := some { ev with added := false, delay := none } }
        else Except.ok s

/-- `HTTP::remove` (`HTTP.cpp` lines 90-93): drop the connection from the
list (C++ `list::remove` compares the stored pointers; identity is modelled
by `Conn.id`) and re-`add` the accept event.  The un-guarded
`acceptEvent->add()` requires the accept event to exist. -/
def remove (c : Conn) (s : HTTPState) : Except String HTTPState :=
  match s.acceptEvent with
  | none => Except.error "NULL SmartPointer dereference"
  | some ev =>
      Except.ok { s with connections := s.connections.filter (fun x => x.id != c.id),
                         acceptEvent := some { ev with added := true } }

/-- `HTTP::bind` (`HTTP.cpp` lines 96-115): throw `"Already bound"` if a
socket is already set (before any member is touched); otherwise create the
listening socket with `SO_REUSEADDR` and the configured backlog, create the
persistent read accept event, set its priority when `0 ≤ priority`, add it,
and record the socket and bound address. -/
def bind (addr : String) (s : HTTPState) : HTTPState × Except String Unit :=
  if s.socket.isSome then (s, Except.error "Already bound")
  else
    let sock : SocketH := { reuseAddr := true, addr := addr, backlog := s.connectionBacklog }
    let p := if 0 < s.priority then s.priority - 1 else s.priority
    let ev0 := newEvent
    let ev1 := if 0 ≤ s.priority then { ev0 with priority := some p } else ev0
    let ev2 := { ev1 with added := true }
    ({ s with acceptEvent := some ev2, socket := some sock, boundAddr := some addr },
     Except.ok ())

/-- Observable actions of `HTTP::acceptCB`: the handler's `evict` hook, the
`acceptEvent->del()` back-pressure, a failed `socket->accept`, and a
completed accept of the connection with the given id. -/
inductive AcceptEv where
  | evictCall
  | acceptDel
  | acceptFailed
  | accepted (id : Nat)
deriving DecidableEq

/-- The accept tail of `HTTP::acceptCB` (`HTTP.cpp` lines 191-218):
`socket->accept` either fails (log and return) or yields a new connection,
which receives the server-wide settings and is appended to the connection
list.  `acc` is the accepted connection as produced by the socket layer,
`tr` the trace accumulated so far. -/
def acceptNew (acc : Option Conn) (s : HTTPState) (tr : List AcceptEv) :
    HTTPState × List AcceptEv :=
  match acc with
  | none => (s, tr ++ [AcceptEv.acceptFailed])
  | some c0 =>
      let c := { c0 with maxHeaderSize := s.maxHeaderSize,
                         maxBodySize := s.maxBodySize,
                         priority := if 0 ≤ s.priority then some s.priority else c0.priority,
                         readTimeout := s.readTimeout,
                         writeTimeout := s.writeTimeout,
                         statsSet := s.statsSet }
      ({ s with connections := s.connections ++ [c] }, tr ++ [AcceptEv.accepted c0.id])

/-- `HTTP::acceptCB` (`HTTP.cpp` lines 185-219): when `maxConnections` is
set and the table is at or above it, first let the handler evict; if still
at or above the cap, `del()` the accept event and return without accepting;
otherwise accept one socket.  `evict` is the handler's hook acting on the
connection list; `acceptCB` only runs as the accept event's callback, so the
accept handle exists when `del()` is reached. -/
def acceptCB (evict : List Conn → List Conn) (acc : Option Conn) (s : HTTPState) :
    HTTPState × List AcceptEv :=
  if s.maxConnections ≠ 0 ∧ s.maxConnections ≤ s.connections.length then
    let s1 := { s with connections := evict s.connections }
    if s.maxConnections ≤ s1.connections.length then
      ({ s1 with acceptEvent := s1.acceptEvent.map (fun e => { e with added := false }) },
       [AcceptEv.evictCall, AcceptEv.acceptDel])
    else acceptNew acc s1 [AcceptEv.evictCall]
  else acceptNew acc s []

/-- The scan loop of `HTTP::expireCB` (`HTTP.cpp` lines 173-179): walk the
connection list in order, erasing every connection with
`maxConnectionTTL < now - startTime` and counting the erasures. -/
def expireScan (ttl : Nat) (now : Int) : List Conn → List Conn × Nat
  | [] => ([], 0)
  | c :: rest =>
      let r := expireScan ttl now rest
      if (ttl : Int) < now - c.startTime then (r.1, r.2 + 1)
      else (c :: r.1, r.2)

/-- `HTTP::expireCB` (`HTTP.cpp` lines 169-182): run the scan; each erased
connection bumps the "timedout" stats counter when a stats sink is set. -/
def expireCB (now : Int) (s : HTTPState) : HTTPState :=
  let r := expireScan s.maxConnectionTTL now s.connections
  { s with connections := r.1,
           statsTimedout := s.statsTimedout + (if s.statsSet then r.2 else 0) }

/-- Modelled from the spec: the `Event`/`Base` implementation backing
`expireEvent` is not in `src/`; per the spec ("a recurring 60-second timer
scans the list") a scheduled expire timer fires, runs `HTTP::expireCB`, and
stays scheduled with the same delay, so the scan recurs. -/
def fireExpireEvent (now : Int) (s : HTTPState) : HTTPState :=
  match s.expireEvent with
  | some ev => if ev.added then expireCB now s else s
  | none => s

/-- The `Option` flag bits touched by `Option::set`
(`SET_FLAG`, `DEFAULT_SET_FLAG`, `COMMAND_LINE_FLAG`). -/
structure OptionFlags where
  setFlag : Bool
  defaultSetFlag : Bool
  commandLineFlag : Bool
deriving DecidableEq

/-- The mutable state of a config `Option` that `Option::set` reads and
writes: the stored value and the flag bits. -/
structure OptionState where
  value : String
  flags : OptionFlags
deriving DecidableEq

/-- The state of the option after the assignments at the top of
`Option::set` (`Option.cpp` lines 147-151): `flags |= SET_FLAG`, store the
new value, `flags &= ~COMMAND_LINE_FLAG`. -/
def optionUpdated (s : OptionState) (v : String) : OptionState :=
  { s with value := v,
           flags := { s.flags with setFlag := true, commandLineFlag := false } }

/-- What a call to `Option::set` did: the option state on return (or on
throw), whether the exception propagated (`THROWC`), whether the invalid
value was only warned about, and whether the option's action ran. -/
structure SetResult where
  state : OptionState
  threw : Bool
  warned : Bool
  actionRan : Bool
deriving DecidableEq

/-- `Option::set(const string)` (`Option.cpp` lines 141-173).  `act` is
`hasAction()`; `vf` is the validation of the option's current state
(`validate()` throws exactly when `vf` is `true` on the updated state).  An
unchanged already-set value returns immediately; otherwise the flags and
value are saved, updated, and validated: on validation failure both are
restored, then either a warning is logged (`Options::warnWhenInvalid`) and
execution falls through to the action, or the exception is rethrown and the
action is not invoked. -/
def optionSet (warnWhenInvalid act : Bool) (vf : OptionState → Bool)
    (s : OptionState) (v : String) : SetResult :=
  if s.flags.setFlag = true ∧ s.value = v then
    { state := s, threw := false, warned := false, actionRan := false }
  else
    let s1 := optionUpdated s v
    if vf s1 then
      let s2 := { s1 with flags := s.flags, value := s.value }
      if warnWhenInvalid then
        { state := s2, threw := false, warned := true, actionRan := act }
      else
        { state := s2, threw := true, warned := false, actionRan := false }
    else
      { state := s1, threw := false, warned := false, actionRan := act }

/-! Concrete instances on which the theorems below are evaluated. -/

/-- A concrete request. -/
def wReq : Request := { id := 7, clientIP := "10.0.0.9" }

/-- A handler environment in which no external call throws. -/
def wEnvOk : DispatchEnv :=
  { handleRequest := Except.ok true, endRequest := Except.ok (),
    sendError404 := Except.ok (), replyRes := Except.ok (),
    sendErrRes := Except.ok (), sendErr500Res := Except.ok (), debug3 := false }

/-- A handler environment whose `handleRequest` throws a code-418 cbang
exception and whose `req.reply` call itself throws. -/
def wEnvReplyThrows : DispatchEnv :=
  { handleRequest := Except.error (CppExc.cb 418 "teapot"), endRequest := Except.ok (),
    sendError404 := Except.ok (), replyRes := Except.error CppExc.other,
    sendErrRes := Except.ok (), sendErr500Res := Except.ok (), debug3 := false }

/-- A handler environment whose `handleRequest` throws a code-503 cbang
exception; nothing else throws. -/
def wEnvDomain : DispatchEnv :=
  { handleRequest := Except.error (CppExc.cb 503 "overloaded"), endRequest := Except.ok (),
    sendError404 := Except.ok (), replyRes := Except.ok (),
    sendErrRes := Except.ok (), sendErr500Res := Except.ok (), debug3 := false }

/-- A failed task whose `error` callback throws. -/
def wTaskFail : PoolTask :=
  { id := 1, prio := 0, exc := some (Captured.msg "boom"), errorThrows := true,
    successThrows := false, completeThrows := false }

/-- A successful task whose `complete` callback throws. -/
def wTaskOk : PoolTask :=
  { id := 2, prio := 5, exc := none, errorThrows := false,
    successThrows := false, completeThrows := true }

/-- A completed queue holding both tasks. -/
def wTasks : List PoolTask := [wTaskFail, wTaskOk]

/-- A pool state with one ready task. -/
def wPool : PoolState := { size := 4, ready := [wTaskOk], completed := [], activations := 0 }

/-- A registered event handle. -/
def wEv : EventH := { priority := some 2, added := true, delay := none }

/-- A connection that started at time 0. -/
def wConnA : Conn :=
  { id := 1, startTime := 0, maxHeaderSize := 0, maxBodySize := 0, priority := none,
    readTimeout := 50, writeTimeout := 50, statsSet := false }

/-- A connection that started at time 89. -/
def wConnB : Conn := { wConnA with id := 2, startTime := 89 }

/-- A connection that started at time 90. -/
def wConnC : Conn := { wConnA with id := 3, startTime := 90 }

/-- A freshly constructed `HTTP` object: no connections, no socket, no
events. -/
def httpFresh : HTTPState :=
  { maxConnections := 0, maxConnectionTTL := 0, connectionBacklog := 8,
    maxHeaderSize := 0, maxBodySize := 0, readTimeout := 50, writeTimeout := 50,
    priority := -1, connections := [], socket := none, boundAddr := none,
    acceptEvent := none, expireEvent := none, statsSet := false, statsTimedout := 0 }

/-- A server at its connection cap of 2 with a registered accept event. -/
def wAcceptState : HTTPState :=
  { httpFresh with maxConnections := 2, connections := [wConnA, wConnB],
                   acceptEvent := some wEv }

/-- An evict hook that drops every connection. -/
def wEvictAll : List Conn → List Conn := fun _ => []

/-- A server with TTL 10, three connections and a stats sink. -/
def wExpireState : HTTPState :=
  { httpFresh with maxConnectionTTL := 10, connections := [wConnA, wConnB, wConnC],
                   statsSet := true }

/-- A server with event priority 3 and no expire event yet. -/
def wTtlState : HTTPState := { httpFresh with priority := 3 }

/-- A bound listening socket. -/
def wSock : SocketH := { reuseAddr := true, addr := "127.0.0.1:80", backlog := 8 }

/-- A server that is already bound. -/
def wBoundState : HTTPState :=
  { httpFresh with socket := some wSock, boundAddr := some "127.0.0.1:80" }

/-- A server whose expire event exists and is pending. -/
def wZeroState : HTTPState := { httpFresh with expireEvent := some wEv, maxConnectionTTL := 5 }

/-- An unset option with empty value. -/
def wOptState : OptionState :=
  { value := "", flags := { setFlag := false, defaultSetFlag := false, commandLineFlag := false } }

/-- A validator that rejects every state. -/
def wVf : OptionState → Bool := fun _ => true

/-! Theorems. -/

/-- Splitting `countEnd` over an appended trace. -/
theorem countEnd_append (a b : List DEv) : countEnd (a ++ b) = countEnd a + countEnd b := by
  simp [countEnd, List.countP_append]

/-- No catch clause of `dispatch` invokes `endRequest`. -/
theorem countEnd_dispatchCatch (env : DispatchEnv) (req : Request) (e : CppExc) :
    countEnd (dispatchCatch env req e).1 = 0 := by
  cases e with
  | cb c m =>
      by_cases h : 400 ≤ c ∧ c < 600
      · simp [dispatchCatch, h, countEnd, isEndCall]
      · by_cases hd : env.debug3 <;>
          simp [dispatchCatch, h, hd, countEnd, isEndCall]
  | std w => simp [dispatchCatch, countEnd, isEndCall]
  | other => simp [dispatchCatch, countEnd, isEndCall]

/-- When none of the reply calls in the catch clauses throws, every catch
clause completes normally. -/
theorem dispatchCatch_ok (env : DispatchEnv) (req : Request) (e : CppExc)
    (hReply : env.replyRes = Except.ok ()) (hSend : env.sendErrRes = Except.ok ())
    (h500 : env.sendErr500Res = Except.ok ()) :
    (dispatchCatch env req e).2 = Except.ok () := by
  cases e with
  | cb c m =>
      by_cases h : 400 ≤ c ∧ c < 600 <;> simp [dispatchCatch, h, hReply, hSend]
  | std w => simpa [dispatchCatch] using hSend
  | other => simpa [dispatchCatch] using h500

/-- When the try block of `dispatch` throws without having invoked
`endRequest`, and neither the catch-clause replies nor `endRequest` throw,
`endRequest` runs exactly once. -/
theorem countEnd_dispatch_threw (env : DispatchEnv) (req : Request) (e : CppExc)
    (tr : List DEv)
    (hEnd : env.endRequest = Except.ok ()) (hReply : env.replyRes = Except.ok ())
    (hSend : env.sendErrRes = Except.ok ()) (h500 : env.sendErr500Res = Except.ok ())
    (ht : dispatchTry env = (tr, TryOut.threw e)) (htr : countEnd tr = 0) :
    countEnd (dispatch env req).1 = 1 := by
  rcases hcc : dispatchCatch env req e with ⟨tc, rc⟩
  have hrc : rc = Except.ok () := by
    have h := dispatchCatch_ok env req e hReply hSend h500
    rw [hcc] at h; exact h
  have htc : countEnd tc = 0 := by
    have h := countEnd_dispatchCatch env req e
    rw [hcc] at h; exact h
  subst hrc
  simp only [countEnd] at htr htc
  simp [dispatch, ht, hcc, hEnd, countEnd, isEndCall, List.countP_append, htr, htc]

/-- C1 (amended): `HTTP::dispatch` invokes `handler.endRequest(req)` exactly
once when `handleRequest` returns `true` or `false` and when `handleRequest`
or the in-try 404 reply throws, provided `endRequest` itself and the error
replies issued inside the catch clauses do not throw. -/
theorem dispatch_endRequest_always_once (env : DispatchEnv) (req : Request)
    (hEnd : env.endRequest = Except.ok ()) (hReply : env.replyRes = Except.ok ())
    (hSend : env.sendErrRes = Except.ok ()) (h500 : env.sendErr500Res = Except.ok ()) :
    countEnd (dispatch env req).1 = 1 := by
  rcases hh : env.handleRequest with e | b
  · exact countEnd_dispatch_threw env req e [DEv.callHandle] hEnd hReply hSend h500
      (by simp [dispatchTry, hh]) (by simp [countEnd, isEndCall])
  · cases b
    · rcases h404 : env.sendError404 with e4 | u
      · exact countEnd_dispatch_threw env req e4 [DEv.callHandle, DEv.send404]
          hEnd hReply hSend h500
          (by simp [dispatchTry, hh, h404]) (by simp [countEnd, isEndCall])
      · simp [dispatch, dispatchTry, hh, h404, hEnd, countEnd, isEndCall,
          List.countP_append]
    · simp [dispatch, dispatchTry, hh, hEnd, countEnd, isEndCall]

/-- C1 witness: in an environment where nothing throws, a dispatch of a
handled request invokes `endRequest` exactly once. -/
theorem dispatch_endRequest_always_once_witness :
    wEnvOk.endRequest = Except.ok () ∧ wEnvOk.replyRes = Except.ok ()
    ∧ wEnvOk.sendErrRes = Except.ok () ∧ wEnvOk.sendErr500Res = Except.ok ()
    ∧ countEnd (dispatch wEnvOk wReq).1 = 1 :=
  ⟨rfl, rfl, rfl, rfl, dispatch_endRequest_always_once wEnvOk wReq rfl rfl rfl rfl⟩

/-- C1 counterexample: when `handleRequest` throws a code-418 cbang
exception and the `req.reply(418)` call inside the catch clause itself
throws, the exception propagates out of `dispatch` and `endRequest` is
never invoked — not exactly once, as the claim states for every path on
which `handleRequest` throws. -/
theorem dispatch_endRequest_skipped_cex :
    countEnd (dispatch wEnvReplyThrows wReq).1 = 0
    ∧ (dispatch wEnvReplyThrows wReq).2 = Except.error CppExc.other := by
  constructor <;> rfl

/-- C5: when `handleRequest` throws a cbang exception whose code `c` is in
[400, 600), `dispatch` logs a warning holding the request ID and the client
IP and replies with status `c` itself: no generic `sendError` and no 404 is
issued. -/
theorem dispatch_domain_status_reply (env : DispatchEnv) (req : Request)
    (c : Int) (m : String)
    (hh : env.handleRequest = Except.error (CppExc.cb c m))
    (h4 : 400 ≤ c) (h6 : c < 600) :
    DEv.logWarning ("REQ" ++ toString req.id ++ ":" ++ req.clientIP ++ ":" ++ m)
        ∈ (dispatch env req).1
    ∧ DEv.reply c ∈ (dispatch env req).1
    ∧ DEv.sendErrExc ∉ (dispatch env req).1
    ∧ DEv.sendErr500 ∉ (dispatch env req).1
    ∧ DEv.send404 ∉ (dispatch env req).1 := by
  rcases hrep : env.replyRes with e2 | u
  · simp [dispatch, dispatchTry, hh, dispatchCatch, h4, h6, hrep]
  · rcases hend : env.endRequest with e3 | u3 <;>
      simp [dispatch, dispatchTry, hh, dispatchCatch, h4, h6, hrep, hend]

/-- C5 witness: a thrown code-503 cbang exception yields the warning line
with request ID and client IP and a 503 reply. -/
theorem dispatch_domain_status_reply_witness :
    wEnvDomain.handleRequest = Except.error (CppExc.cb 503 "overloaded")
    ∧ (400 : Int) ≤ 503 ∧ (503 : Int) < 600
    ∧ (DEv.logWarning ("REQ" ++ toString wReq.id ++ ":" ++ wReq.clientIP ++ ":" ++ "overloaded")
          ∈ (dispatch wEnvDomain wReq).1
       ∧ DEv.reply 503 ∈ (dispatch wEnvDomain wReq).1
       ∧ DEv.sendErrExc ∉ (dispatch wEnvDomain wReq).1
       ∧ DEv.sendErr500 ∉ (dispatch wEnvDomain wReq).1
       ∧ DEv.send404 ∉ (dispatch wEnvDomain wReq).1) :=
  ⟨rfl, by decide, by decide,
   dispatch_domain_status_reply wEnvDomain wReq 503 "overloaded" rfl (by decide) (by decide)⟩

/-- Normal form of a drained task's trace: the first callback, a possible
caught-exception log, then `complete` and a possible caught-exception log. -/
theorem drainTask_eq (t : PoolTask) :
    drainTask t =
      firstCall t ::
        ((if getFailed t = true then (if t.errorThrows then [PEv.logCaught] else [])
          else (if t.successThrows then [PEv.logCaught] else []))
         ++ PEv.completeCall t.id :: (if t.completeThrows then [PEv.logCaught] else [])) := by
  rcases t with ⟨i, p, exc, eT, sT, cT⟩
  cases exc <;> simp [drainTask, firstCall, getFailed]

/-- A drained task records exactly one `error` invocation for its own id
when failed, none otherwise. -/
theorem countP_drainTask_err (t : PoolTask) :
    (drainTask t).countP (isErrCallFor t.id) = if getFailed t then 1 else 0 := by
  rcases t with ⟨i, p, exc, eT, sT, cT⟩
  cases exc <;> cases eT <;> cases sT <;> cases cT <;>
    simp [drainTask, getFailed, isErrCallFor, List.countP_append, List.countP_cons]

/-- A drained task records exactly one `success` invocation for its own id
when not failed, none otherwise. -/
theorem countP_drainTask_succ (t : PoolTask) :
    (drainTask t).countP (isSuccCallFor t.id) = if getFailed t then 0 else 1 := by
  rcases t with ⟨i, p, exc, eT, sT, cT⟩
  cases exc <;> cases eT <;> cases sT <;> cases cT <;>
    simp [drainTask, getFailed, isSuccCallFor, List.countP_append, List.countP_cons]

/-- A drained task records exactly one `complete` invocation for its own
id. -/
theorem countP_drainTask_comp (t : PoolTask) :
    (drainTask t).countP (isCompCallFor t.id) = 1 := by
  rcases t with ⟨i, p, exc, eT, sT, cT⟩
  cases exc <;> cases eT <;> cases sT <;> cases cT <;>
    simp [drainTask, getFailed, isCompCallFor, List.countP_append, List.countP_cons]

/-- A drained task records no invocations for a foreign id. -/
theorem countP_drainTask_ne (t : PoolTask) (j : Nat) (h : t.id ≠ j) :
    (drainTask t).countP (isErrCallFor j) = 0
    ∧ (drainTask t).countP (isSuccCallFor j) = 0
    ∧ (drainTask t).countP (isCompCallFor j) = 0 := by
  rcases t with ⟨i, p, exc, eT, sT, cT⟩
  simp only at h
  cases exc <;> cases eT <;> cases sT <;> cases cT <;>
    simp [drainTask, isErrCallFor, isSuccCallFor, isCompCallFor,
      List.countP_append, List.countP_cons, h]

/-- A drain records no invocations for an id outside the queue. -/
theorem countP_completeDrain_zero (ts : List PoolTask) (j : Nat)
    (h : j ∉ ts.map PoolTask.id) :
    (completeDrain ts).countP (isErrCallFor j) = 0
    ∧ (completeDrain ts).countP (isSuccCallFor j) = 0
    ∧ (completeDrain ts).countP (isCompCallFor j) = 0 := by
  induction ts with
  | nil => simp [completeDrain]
  | cons t ts ih =>
      simp only [List.map_cons, List.mem_cons, not_or] at h
      obtain ⟨h1, h2⟩ := h
      obtain ⟨e1, e2, e3⟩ := countP_drainTask_ne t j (Ne.symm h1)
      obtain ⟨f1, f2, f3⟩ := ih h2
      simp [completeDrain, List.countP_append, e1, e2, e3, f1, f2, f3]

/-- Within a single drained task the first callback is followed by the
`complete` invocation. -/
theorem firstCall_sublist (t : PoolTask) :
    [firstCall t, PEv.completeCall t.id] <+ drainTask t := by
  rw [drainTask_eq]
  exact List.Sublist.cons₂ _ (List.singleton_sublist.mpr
    (List.mem_append_right _ (List.mem_cons_self _ _)))

/-- C2: for every task drained by `ConcurrentPool::complete`, exactly one
of `error` (when failed, with the captured exception as recorded in
`firstCall`) or `success` (when not failed) is invoked, followed by exactly
one `complete`; a throw from `success`/`error` does not prevent `complete`,
and a throw from any callback does not stop the drain of the remaining
tasks. -/
theorem pool_complete_drain_each_task (ts : List PoolTask) (t : PoolTask)
    (hN : (ts.map PoolTask.id).Nodup) (ht : t ∈ ts) :
    ((completeDrain ts).countP (isErrCallFor t.id) = if getFailed t then 1 else 0)
    ∧ ((completeDrain ts).countP (isSuccCallFor t.id) = if getFailed t then 0 else 1)
    ∧ ((completeDrain ts).countP (isCompCallFor t.id) = 1)
    ∧ [firstCall t, PEv.completeCall t.id] <+ completeDrain ts := by
  induction ts with
  | nil => cases ht
  | cons u ts ih =>
      simp only [List.map_cons, List.nodup_cons] at hN
      obtain ⟨hu, hN2⟩ := hN
      rcases List.mem_cons.mp ht with rfl | hmem
      · obtain ⟨z1, z2, z3⟩ := countP_completeDrain_zero ts t.id hu
        refine ⟨?_, ?_, ?_, ?_⟩
        · simp [completeDrain, List.countP_append, countP_drainTask_err, z1]
        · simp [completeDrain, List.countP_append, countP_drainTask_succ, z2]
        · simp [completeDrain, List.countP_append, countP_drainTask_comp, z3]
        · exact (firstCall_sublist t).trans (List.sublist_append_left _ _)
      · have hid : u.id ≠ t.id := fun hEq =>
          hu (by rw [hEq]; exact List.mem_map_of_mem _ hmem)
        obtain ⟨e1, e2, e3⟩ := countP_drainTask_ne u t.id hid
        obtain ⟨g1, g2, g3, g4⟩ := ih hN2 hmem
        refine ⟨?_, ?_, ?_, ?_⟩
        · simp [completeDrain, List.countP_append, e1, g1]
        · simp [completeDrain, List.countP_append, e2, g2]
        · simp [completeDrain, List.countP_append, e3, g3]
        · exact g4.trans (List.sublist_append_right _ _)

/-- C2 witness: on a queue of a failed task (whose `error` throws) and a
successful one (whose `complete` throws), the failed task gets exactly one
`error` followed by one `complete`. -/
theorem pool_complete_drain_each_task_witness :
    (wTasks.map PoolTask.id).Nodup ∧ wTaskFail ∈ wTasks
    ∧ (((completeDrain wTasks).countP (isErrCallFor wTaskFail.id) =
          if getFailed wTaskFail then 1 else 0)
       ∧ ((completeDrain wTasks).countP (isSuccCallFor wTaskFail.id) =
           if getFailed wTaskFail then 0 else 1)
       ∧ ((completeDrain wTasks).countP (isCompCallFor wTaskFail.id) = 1)
       ∧ [firstCall wTaskFail, PEv.completeCall wTaskFail.id] <+ completeDrain wTasks) :=
  ⟨by decide, by decide,
   pool_complete_drain_each_task wTasks wTaskFail (by decide) (by decide)⟩

/-- C4: a worker-loop iteration of `ConcurrentPool::run` never lets a value
thrown by `task->run()` propagate: a cbang exception is captured on the task
as-is, another `std::exception` as its message string, and any other thrown
value as the literal string "Unknown exception"; in every case the task is
pushed onto the completed queue, the reactor-side event is activated, and
the iteration returns so the worker continues. -/
theorem pool_worker_error_capture (s : PoolState) (t : PoolTask) (rest : List PoolTask)
    (o : RunOutcome) (h : s.ready = t :: rest) :
    (workerIteration s o).ready = rest
    ∧ (workerIteration s o).activations = s.activations + 1
    ∧ (match o with
       | RunOutcome.ok => (workerIteration s o).completed = s.completed ++ [t]
       | RunOutcome.throwCb c m =>
           (workerIteration s o).completed =
             s.completed ++ [{ t with exc := some (Captured.cb c m) }]
       | RunOutcome.throwStd w =>
           (workerIteration s o).completed =
             s.completed ++ [{ t with exc := some (Captured.msg w) }]
       | RunOutcome.throwOther =>
           (workerIteration s o).completed =
             s.completed ++ [{ t with exc := some (Captured.msg "Unknown exception") }])
    ∧ (o ≠ RunOutcome.ok → getFailed (runAndCapture t o) = true) := by
  cases o <;> simp [workerIteration, h, runAndCapture, getFailed]

/-- C4 witness: running the ready task with an unknown thrown value stores
the literal "Unknown exception", completes the task and activates the
event. -/
theorem pool_worker_error_capture_witness :
    wPool.ready = wTaskOk :: []
    ∧ ((workerIteration wPool RunOutcome.throwOther).ready = []
       ∧ (workerIteration wPool RunOutcome.throwOther).activations = wPool.activations + 1
       ∧ (workerIteration wPool RunOutcome.throwOther).completed =
           wPool.completed ++ [{ wTaskOk with exc := some (Captured.msg "Unknown exception") }]
       ∧ (RunOutcome.throwOther ≠ RunOutcome.ok →
           getFailed (runAndCapture wTaskOk RunOutcome.throwOther) = true)) :=
  ⟨rfl, pool_worker_error_capture wPool wTaskOk [] RunOutcome.throwOther rfl⟩

/-- C3: with a connection cap set and the invariant `size ≤ cap` holding,
`HTTP::acceptCB` preserves the invariant; when at the cap the handler's
`evict` hook runs first, and when still at the cap afterwards the accept
event is deregistered and no socket is accepted; and `HTTP::remove`
re-registers the accept event. -/
theorem http_accept_cap_invariant (evict : List Conn → List Conn) (acc : Option Conn)
    (s : HTTPState) (c : Conn) (ev : EventH)
    (hEvict : evict s.connections <+ s.connections)
    (hmax : 0 < s.maxConnections)
    (hinv : s.connections.length ≤ s.maxConnections)
    (hev : s.acceptEvent = some ev) :
    ((acceptCB evict acc s).1.connections.length ≤ s.maxConnections)
    ∧ (s.maxConnections ≤ s.connections.length →
        (acceptCB evict acc s).2.head? = some AcceptEv.evictCall)
    ∧ (s.maxConnections ≤ s.connections.length →
       s.maxConnections ≤ (evict s.connections).length →
        acceptCB evict acc s =
          ({ s with connections := evict s.connections,
                    acceptEvent := some { ev with added := false } },
           [AcceptEv.evictCall, AcceptEv.acceptDel]))
    ∧ (remove c s =
        Except.ok { s with connections := s.connections.filter (fun x => x.id != c.id),
                           acceptEvent := some { ev with added := true } }) := by
  have hne : s.maxConnections ≠ 0 := Nat.pos_iff_ne_zero.mp hmax
  have hlen : (evict s.connections).length ≤ s.connections.length := hEvict.length_le
  refine ⟨?_, ?_, ?_, ?_⟩
  · by_cases hcap : s.maxConnections ≤ s.connections.length
    · by_cases h2 : s.maxConnections ≤ (evict s.connections).length
      · simp only [acceptCB, if_pos (And.intro hne hcap), if_pos h2]
        exact le_trans hlen hinv
      · have hlt : (evict s.connections).length < s.maxConnections := not_le.mp h2
        rcases acc with _ | c0
        · simp only [acceptCB, if_pos (And.intro hne hcap), if_neg h2, acceptNew]
          exact le_trans hlen hinv
        · simp only [acceptCB, if_pos (And.intro hne hcap), if_neg h2, acceptNew,
            List.length_append, List.length_cons, List.length_nil]
          omega
    · have hlt : s.connections.length < s.maxConnections := not_le.mp hcap
      have hcond : ¬(s.maxConnections ≠ 0 ∧ s.maxConnections ≤ s.connections.length) := by
        intro h; exact hcap h.2
      rcases acc with _ | c0
      · simp only [acceptCB, if_neg hcond, acceptNew]
        exact hinv
      · simp only [acceptCB, if_neg hcond, acceptNew, List.length_append,
          List.length_cons, List.length_nil]
        omega
  · intro hcap
    by_cases h2 : s.maxConnections ≤ (evict s.connections).length
    · simp [acceptCB, if_pos (And.intro hne hcap), h2]
    · rcases acc with _ | c0 <;>
        simp [acceptCB, if_pos (And.intro hne hcap), h2, acceptNew]
  · intro hcap h2
    simp [acceptCB, if_pos (And.intro hne hcap), h2, hev]
  · simp [remove, hev]

/-- C3 witness: at the cap of 2, an evict hook that drops every connection
lets the accept proceed and the invariant hold; removing a connection
re-adds the accept event. -/
theorem http_accept_cap_invariant_witness :
    (wEvictAll wAcceptState.connections <+ wAcceptState.connections)
    ∧ 0 < wAcceptState.maxConnections
    ∧ wAcceptState.connections.length ≤ wAcceptState.maxConnections
    ∧ wAcceptState.acceptEvent = some wEv
    ∧ (((acceptCB wEvictAll (some wConnC) wAcceptState).1.connections.length ≤
          wAcceptState.maxConnections)
       ∧ (wAcceptState.maxConnections ≤ wAcceptState.connections.length →
           (acceptCB wEvictAll (some wConnC) wAcceptState).2.head? =
             some AcceptEv.evictCall)
       ∧ (wAcceptState.maxConnections ≤ wAcceptState.connections.length →
          wAcceptState.maxConnections ≤ (wEvictAll wAcceptState.connections).length →
           acceptCB wEvictAll (some wConnC) wAcceptState =
             ({ wAcceptState with connections := wEvictAll wAcceptState.connections,
                                  acceptEvent := some { wEv with added := false } },
              [AcceptEv.evictCall, AcceptEv.acceptDel]))
       ∧ (remove wConnA wAcceptState =
           Except.ok { wAcceptState with
                         connections :=
                           wAcceptState.connections.filter (fun x => x.id != wConnA.id),
                         acceptEvent := some { wEv with added := true } })) :=
  ⟨List.nil_sublist _, by decide, by decide, rfl,
   http_accept_cap_invariant wEvictAll (some wConnC) wAcceptState wConnA wEv
     (List.nil_sublist _) (by decide) (by decide) rfl⟩

/-- The list component of the expire scan is a filter keeping the
connections whose age does not exceed the TTL. -/
theorem expireScan_fst (ttl : Nat) (now : Int) (l : List Conn) :
    (expireScan ttl now l).1 =
      l.filter (fun c => !decide ((ttl : Int) < now - c.startTime)) := by
  induction l with
  | nil => simp [expireScan]
  | cons c rest ih =>
      by_cases h : (ttl : Int) < now - c.startTime <;>
        simp [expireScan, h, ih, List.filter_cons]

/-- The counter component of the expire scan counts the connections whose
age strictly exceeds the TTL. -/
theorem expireScan_snd (ttl : Nat) (now : Int) (l : List Conn) :
    (expireScan ttl now l).2 =
      l.countP (fun c => decide ((ttl : Int) < now - c.startTime)) := by
  induction l with
  | nil => simp [expireScan]
  | cons c rest ih =>
      by_cases h : (ttl : Int) < now - c.startTime <;>
        simp [expireScan, h, ih, List.countP_cons]

/-- C6: with a positive TTL, `HTTP::expireCB` keeps exactly the connections
whose age `now - startTime` is at most the TTL (so a connection aged
exactly the TTL survives), preserves their relative order, and, when a
stats sink is set, bumps the "timedout" counter once per removed
connection. -/
theorem http_expire_scan (s : HTTPState) (now : Int)
    (hT : 0 < s.maxConnectionTTL) :
    ((expireCB now s).connections =
       s.connections.filter
         (fun c => decide (now - c.startTime ≤ (s.maxConnectionTTL : Int))))
    ∧ ((expireCB now s).connections <+ s.connections)
    ∧ (s.statsSet = true →
        (expireCB now s).statsTimedout =
          s.statsTimedout +
            s.connections.countP
              (fun c => decide ((s.maxConnectionTTL : Int) < now - c.startTime))) := by
  have hpred : ∀ c ∈ s.connections,
      (!decide ((s.maxConnectionTTL : Int) < now - c.startTime))
        = decide (now - c.startTime ≤ (s.maxConnectionTTL : Int)) := by
    intro c _
    by_cases h : (s.maxConnectionTTL : Int) < now - c.startTime
    · simp [h, not_le.mpr h]
    · simp [h, not_lt.mp h]
  refine ⟨?_, ?_, ?_⟩
  · simp only [expireCB, expireScan_fst]
    exact List.filter_congr hpred
  · simp only [expireCB, expireScan_fst]
    exact List.filter_sublist _
  · intro hs
    simp [expireCB, expireScan_snd, hs]

/-- C6 witness: at time 100 with TTL 10, the connections aged 100 and 11
are dropped and counted, the one aged exactly 10 survives. -/
theorem http_expire_scan_witness :
    0 < wExpireState.maxConnectionTTL
    ∧ (((expireCB 100 wExpireState).connections =
         wExpireState.connections.filter
           (fun c => decide ((100 : Int) - c.startTime ≤ (wExpireState.maxConnectionTTL : Int))))
       ∧ ((expireCB 100 wExpireState).connections <+ wExpireState.connections)
       ∧ (wExpireState.statsSet = true →
           (expireCB 100 wExpireState).statsTimedout =
             wExpireState.statsTimedout +
               wExpireState.connections.countP
                 (fun c => decide ((wExpireState.maxConnectionTTL : Int) < (100 : Int) - c.startTime)))) :=
  ⟨by decide, http_expire_scan wExpireState 100 (by decide)⟩

/-- C7: setting a nonzero TTL creates the expire event when absent, sets
its priority to `priority - 1` when `0 < priority` (else `priority`),
schedules it with a 60-second delay, and — per the spec's recurring-timer
semantics of `fireExpireEvent` — a firing leaves the event scheduled with
the same delay, so the scan recurs once per minute while the TTL stays
nonzero. -/
theorem http_set_ttl_nonzero_schedules (s : HTTPState) (x : Nat) (now : Int)
    (hx : x ≠ 0) :
    setMaxConnectionTTL x s =
      Except.ok { s with maxConnectionTTL := x, expireEvent := some { priority := some (if 0 < s.priority then s.priority - 1 else s.priority), added := true, delay := some 60 } }
    ∧ (fireExpireEvent now { s with maxConnectionTTL := x, expireEvent := some { priority := some (if 0 < s.priority then s.priority - 1 else s.priority), added := true, delay := some 60 } }).expireEvent =
        some { priority := some (if 0 < s.priority then s.priority - 1 else s.priority), added := true, delay := some 60 } := by
  constructor
  · cases hse : s.expireEvent <;> simp [setMaxConnectionTTL, hx, hse, newEvent]
  · simp [fireExpireEvent, expireCB]

/-- C7 witness: TTL 5 on a server with priority 3 yields an expire event of
priority 2 pending with delay 60, and a firing leaves it scheduled. -/
theorem http_set_ttl_nonzero_schedules_witness :
    (5 : Nat) ≠ 0
    ∧ (setMaxConnectionTTL 5 wTtlState =
         Except.ok { wTtlState with maxConnectionTTL := 5, expireEvent := some { priority := some (if 0 < wTtlState.priority then wTtlState.priority - 1 else wTtlState.priority), added := true, delay := some 60 } }
       ∧ (fireExpireEvent 0 { wTtlState with maxConnectionTTL := 5, expireEvent := some { priority := some (if 0 < wTtlState.priority then wTtlState.priority - 1 else wTtlState.priority), added := true, delay := some 60 } }).expireEvent =
           some { priority := some (if 0 < wTtlState.priority then wTtlState.priority - 1 else wTtlState.priority), added := true, delay := some 60 }) :=
  ⟨by decide, http_set_ttl_nonzero_schedules wTtlState 5 0 (by decide)⟩

/-- C8: configuration errors are fatal at startup: `HTTP::bind` on an
already-bound server throws "Already bound" leaving the whole state — the
listener, the accept event and the bound address — unchanged, and the
`ConcurrentPool` constructor throws when threads are not enabled. -/
theorem http_config_errors_fatal (s : HTTPState) (addr : String) (n : Nat)
    (hs : s.socket.isSome = true) :
    bind addr s = (s, Except.error "Already bound")
    ∧ mkConcurrentPool false n =
        Except.error ("Cannot use Event::ConcurrentPool without threads enabled.  " ++
          "Call Event::Base::enableThreads() before creating Event::Base.") := by
  constructor
  · simp [bind, hs]
  · rfl

/-- C8 witness: a second bind on the bound server fails with "Already
bound" and leaves the state intact; a pool without threads enabled fails
to construct. -/
theorem http_config_errors_fatal_witness :
    wBoundState.socket.isSome = true
    ∧ (bind "0.0.0.0:8080" wBoundState = (wBoundState, Except.error "Already bound")
       ∧ mkConcurrentPool false 4 =
           Except.error ("Cannot use Event::ConcurrentPool without threads enabled.  " ++
             "Call Event::Base::enableThreads() before creating Event::Base.")) :=
  ⟨rfl, http_config_errors_fatal wBoundState "0.0.0.0:8080" 4 rfl⟩

/-- C9: when `Options::warnWhenInvalid` is false and validation of the
updated option state throws, `Option::set` restores the flags and the
stored value to exactly their prior state, does not invoke the option's
action, and (outside the unchanged-value early return, where validation
never runs) rethrows. -/
theorem option_set_atomic_on_invalid (act : Bool) (vf : OptionState → Bool)
    (s : OptionState) (v : String) (hval : vf (optionUpdated s v) = true) :
    ((optionSet false act vf s v).state = s)
    ∧ ((optionSet false act vf s v).actionRan = false)
    ∧ (¬(s.flags.setFlag = true ∧ s.value = v) →
        (optionSet false act vf s v).threw = true) := by
  obtain ⟨sv, f1, f2, f3⟩ := s
  simp only [optionUpdated] at hval
  by_cases h : f1 = true ∧ sv = v
  · simp [optionSet, h]
  · refine ⟨?_, ?_, fun _ => ?_⟩ <;> simp [optionSet, optionUpdated, h, hval]

/-- C9 witness: an always-failing validator on an unset option leaves the
state untouched, skips the action and rethrows. -/
theorem option_set_atomic_on_invalid_witness :
    wVf (optionUpdated wOptState "x") = true
    ∧ (((optionSet false true wVf wOptState "x").state = wOptState)
       ∧ ((optionSet false true wVf wOptState "x").actionRan = false)
       ∧ (¬(wOptState.flags.setFlag = true ∧ wOptState.value = "x") →
           (optionSet false true wVf wOptState "x").threw = true)) :=
  ⟨rfl, option_set_atomic_on_invalid true wVf wOptState "x" rfl⟩

/-- C10 counterexample: on a freshly constructed server whose expire event
was never created, `setMaxConnectionTTL(0)` evaluates
`expireEvent->isPending()` on the unset handle and fails — the zero branch
does not check that the expire event exists, contrary to the claim. -/
theorem http_set_ttl_zero_null_deref_cex :
    setMaxConnectionTTL 0 httpFresh = Except.error "NULL SmartPointer dereference" := rfl

/-- C10 (amended): `setMaxConnectionTTL(0)` dereferences the expire-event
handle unconditionally, so it is safe exactly when the expire event already
exists (a nonzero TTL was set before): then it stores the TTL and deletes
the event when pending. -/
theorem http_set_ttl_zero_requires_event (s : HTTPState) (ev : EventH)
    (hev : s.expireEvent = some ev) :
    setMaxConnectionTTL 0 s =
      Except.ok (if ev.added
        then { s with maxConnectionTTL := 0, expireEvent := some { ev with added := false, delay := none } }
        else { s with maxConnectionTTL := 0 }) := by
  by_cases h : ev.added <;> simp [setMaxConnectionTTL, hev, h]

/-- C10 witness: on a server whose expire event exists and is pending,
`setMaxConnectionTTL(0)` succeeds and deletes the pending event. -/
theorem http_set_ttl_zero_requires_event_witness :
    wZeroState.expireEvent = some wEv
    ∧ setMaxConnectionTTL 0 wZeroState =
        Except.ok (if wEv.added
          then { wZeroState with maxConnectionTTL := 0, expireEvent := some { wEv with added := false, delay := none } }
          else { wZeroState with maxConnectionTTL := 0 }) :=
  ⟨rfl, http_set_ttl_zero_requires_event wZeroState wEv rfl⟩

end Cbang
